import Mathlib

/-!
Shallow embedding of the reaper-test harness core (src/lib.rs) and proofs of
the specified properties of its step runner, exit reporter, global registry,
command hook and deferred trigger surface.

Modelling conventions:
* A step's operation receives the harness immutably and the harness is not
  mutated while the runner iterates, so an operation is embedded by its
  observable result for the run (`StepOutcome`): success, a descriptive
  failure, or a panic carrying a payload.
* Host-side effects (command-id allocation, gaccel registration, hook
  registration, control-surface registration) are recorded as counters in an
  explicit `GlobalState`; `process::exit`, stdout/stderr lines and `panic!`
  are recorded in a `ReportEffect` value instead of transferring control.
* The opaque host capability handles (`low`, `medium_session`, `medium`) are
  embedded as `Nat` tokens derived from the plugin context.
-/

/-- Observable result of one test step operation (`TestCallback`, lib.rs
lines 95-96): `Ok(())`, `Err(reason)`, or a panic raised mid-execution. -/
inductive StepOutcome where
  | ok : StepOutcome
  | fail (reason : String) : StepOutcome
  | panics (payload : String) : StepOutcome
deriving DecidableEq

/-- `TestStep` (lib.rs lines 98-112): immutable pair of display name and
operation, the operation embedded by its observable result. -/
structure TestStep where
  name : String
  operation : StepOutcome
deriving DecidableEq

/-- Result of the closure passed to `panic::catch_unwind` in
`ReaperTest::test` (lib.rs lines 232-239): it either finishes with `Ok(())`,
propagates a step's `Err(reason)` via `?`, or unwinds with a panic payload
that `catch_unwind` catches. -/
inductive LoopExit where
  | ok : LoopExit
  | err (reason : String) : LoopExit
  | panicked (payload : String) : LoopExit
deriving DecidableEq

/-- Run outcome as in section 7 of the design: `Success` or
`Failure(reason)`. In the code this is the shape of `final_result`
(lib.rs lines 240-243) consumed by the reporting `match` (lines 244-263). -/
inductive RunOutcome where
  | success : RunOutcome
  | failure (reason : String) : RunOutcome
deriving DecidableEq

/-- The loop inside `panic::catch_unwind` (lib.rs lines 234-237): iterate
the steps in order; for each, emit the progress marker with its name, then
invoke the operation; `?` aborts on the first `Err`, a panic unwinds to the
boundary. Returns the names of the steps actually invoked (in order) and how
the loop exited. -/
def runSteps : List TestStep → List String × LoopExit
  | [] => ([], LoopExit.ok)
  | step :: rest =>
    match step.operation with
    | StepOutcome.ok =>
      let r := runSteps rest
      (step.name :: r.1, r.2)
    | StepOutcome.fail reason => ([step.name], LoopExit.err reason)
    | StepOutcome.panics payload => ([step.name], LoopExit.panicked payload)

/-- `final_result` (lib.rs lines 240-243): a caught panic is normalized to
`Err("Reaper panicked!".into())`, discarding the payload; otherwise the
loop's own result is kept. -/
def finalResult : LoopExit → RunOutcome
  | LoopExit.ok => RunOutcome.success
  | LoopExit.err reason => RunOutcome.failure reason
  | LoopExit.panicked _ => RunOutcome.failure "Reaper panicked!"

/-- Process-visible effect of the reporting `match` in `ReaperTest::test`
(lib.rs lines 244-263): stdout lines, stderr lines, an optional
`process::exit` code, and an optional `panic!` message. -/
structure ReportEffect where
  stdoutLines : List String
  stderrLines : List String
  exitCode : Option Nat
  panicMsg : Option String
deriving DecidableEq

/-- The reporting `match` on `final_result` (lib.rs lines 244-263), given
`is_integration_test` (Automated mode = `true`): success prints the banner
and, in Automated mode, exits with code 0; failure in Automated mode prints
the reason to stderr and exits with code 172; failure in Interactive mode
raises `panic!` carrying the reason. -/
def report (isIntegrationTest : Bool) : RunOutcome → ReportEffect
  | RunOutcome.success =>
    { stdoutLines := ["From REAPER: reaper-rs integration test executed successfully"]
      stderrLines := []
      exitCode := if isIntegrationTest then some 0 else none
      panicMsg := none }
  | RunOutcome.failure reason =>
    if isIntegrationTest then
      { stdoutLines := []
        stderrLines := ["From REAPER: reaper-rs integration test failed: " ++ reason]
        exitCode := some 172
        panicMsg := none }
    else
      { stdoutLines := []
        stderrLines := []
        exitCode := none
        panicMsg := some ("From REAPER: reaper-rs integration test failed: " ++ reason) }

/-- The `ReaperTest` harness (lib.rs lines 144-152): opaque host capability
handles, the optional action-hook state (its `actions` vector of command
ids), the ordered step registry and the mode flag. -/
structure ReaperTest where
  low : Nat
  mediumSession : Nat
  medium : Nat
  actionHook : Option (List Nat)
  steps : List TestStep
  isIntegrationTest : Bool
deriving DecidableEq

/-- `ReaperTest::test` (lib.rs lines 230-264) on a harness: run the steps
inside the containment boundary, normalize the result, report. Returns the
invoked-step trace, the run outcome and the report effect. -/
def ReaperTest.test (self : ReaperTest) : List String × RunOutcome × ReportEffect :=
  let r := runSteps self.steps
  let outcome := finalResult r.2
  (r.1, outcome, report self.isIntegrationTest outcome)

/-- `ReaperTest::push_test_step` (lib.rs lines 266-268): `self.steps.push(step)`. -/
def ReaperTest.pushTestStep (self : ReaperTest) (step : TestStep) : ReaperTest :=
  { self with steps := self.steps ++ [step] }

/-- Panic message of `get`/`get_mut` when called before setup
(lib.rs lines 215-228). -/
def getMisuseMsg : String := "call `load(context)` before using `get()`"

/-- `ReaperTest::get` (lib.rs lines 215-221) over the global `INSTANCE`
cell: `expect` panics (modelled as `Except.error`) when the instance is
absent, otherwise yields the instance. -/
def ReaperTest.get : Option ReaperTest → Except String ReaperTest
  | none => Except.error getMisuseMsg
  | some h => Except.ok h

/-- `ReaperTest::get_mut` (lib.rs lines 222-228): same behavior as `get`. -/
def ReaperTest.getMut : Option ReaperTest → Except String ReaperTest
  | none => Except.error getMisuseMsg
  | some h => Except.ok h

/-- Process-wide mutable state surrounding the harness: the global
`INSTANCE` cell (lib.rs line 93), the `INIT_INSTANCE` `Once` flag
(lib.rs line 161), and counters for harness constructions and for each kind
of host-side registration performed through a `ReaperSession`. -/
structure GlobalState where
  inst : Option ReaperTest
  onceDone : Bool
  harnessesConstructed : Nat
  nextCommandId : Nat
  hostCommandIdRegs : Nat
  hostGaccelRegs : Nat
  hostHookCmdRegs : Nat
  hostCsurfRegs : Nat
deriving DecidableEq

/-- Process start: no instance, `Once` not yet fired, no registrations. -/
def initialState : GlobalState :=
  { inst := none
    onceDone := false
    harnessesConstructed := 0
    nextCommandId := 1
    hostCommandIdRegs := 0
    hostGaccelRegs := 0
    hostHookCmdRegs := 0
    hostCsurfRegs := 0 }

/-- `ReaperTest::check_action_hook` (lib.rs lines 290-297): on first use,
install an empty `ActionHook` and register the process-wide hook command
with the host. -/
def ReaperTest.checkActionHook (s : GlobalState) (self : ReaperTest) :
    GlobalState × ReaperTest :=
  match self.actionHook with
  | none =>
    ({ s with hostHookCmdRegs := s.hostHookCmdRegs + 1 },
     { self with actionHook := some [] })
  | some _ => (s, self)

/-- `ReaperTest::register_action` (lib.rs lines 270-288): ensure the hook
exists, ask the host for a command id for the name, register a gaccel UI
binding without key shortcut, and push the command id onto the hook's
`actions`. Returns the command id. -/
def ReaperTest.registerAction (s : GlobalState) (self : ReaperTest) :
    GlobalState × ReaperTest × Nat :=
  let sh := ReaperTest.checkActionHook s self
  let s1 := sh.1
  let h1 := sh.2
  let commandId := s1.nextCommandId
  let s2 := { s1 with
    nextCommandId := s1.nextCommandId + 1
    hostCommandIdRegs := s1.hostCommandIdRegs + 1
    hostGaccelRegs := s1.hostGaccelRegs + 1 }
  let h2 := { h1 with actionHook := some ((h1.actionHook.getD []) ++ [commandId]) }
  (s2, h2, commandId)

/-- `ReaperTest::make_available_globally` (lib.rs lines 160-168): the
`Once`-guarded store into `INSTANCE`; subsequent calls have no effect. -/
def ReaperTest.makeAvailableGlobally (s : GlobalState) (self : ReaperTest) :
    GlobalState :=
  if s.onceDone then s else { s with inst := some self, onceDone := true }

/-- `ReaperTest::setup` (lib.rs lines 170-193): construct a fresh harness
from the plugin context with empty steps and mode read from the environment
flag, register the default action on it, hand it to
`make_available_globally`, and — when the mode is Automated — register the
`ReaperTestSurface` control surface on the global instance. The reference
the caller receives is `ReaperTest::get_mut()`, i.e. the global `inst`. -/
def ReaperTest.setup (s : GlobalState) (context : Nat) (envFlagSet : Bool) :
    GlobalState :=
  let inst0 : ReaperTest :=
    { low := context
      mediumSession := context
      medium := context
      actionHook := none
      steps := []
      isIntegrationTest := envFlagSet }
  let s0 := { s with harnessesConstructed := s.harnessesConstructed + 1 }
  let integration := inst0.isIntegrationTest
  let r := ReaperTest.registerAction s0 inst0
  let s1 := r.1
  let inst1 := r.2.1
  let s2 := ReaperTest.makeAvailableGlobally s1 inst1
  if integration then { s2 with hostCsurfRegs := s2.hostCsurfRegs + 1 } else s2

/-- The loop body of `ActionHook::call` (lib.rs lines 131-141) over the
hook's `actions` vector: on the first id equal to the invoked command id,
trigger one test run and report handled (`true`); if no id matches, report
not handled (`false`). Returns (handled, number of test runs triggered). -/
def ActionHook.call : List Nat → Nat → Bool × Nat
  | [], _ => (false, 0)
  | action :: rest, commandId =>
    if action = commandId then (true, 1)
    else ActionHook.call rest commandId

/-- `ReaperTestSurface::run` (lib.rs lines 303-309): on each host poll
cycle, if the global harness's flag is set, invoke `test` and clear the
flag; otherwise do nothing. Returns the updated harness and the test run's
effects when it fired. -/
def ReaperTestSurface.run (rpr : ReaperTest) :
    ReaperTest × Option (List String × RunOutcome × ReportEffect) :=
  if rpr.isIntegrationTest then
    ({ rpr with isIntegrationTest := false }, some rpr.test)
  else
    (rpr, none)

/-- Fire pattern over `n` consecutive host poll cycles: element `i` is
`true` exactly when the surface invoked the test run on cycle `i`. -/
def ReaperTestSurface.pollFires : Nat → ReaperTest → List Bool
  | 0, _ => []
  | n + 1, rpr =>
    let r := ReaperTestSurface.run rpr
    r.2.isSome :: ReaperTestSurface.pollFires n r.1

/-- Sample step used in concrete witnesses: succeeds. -/
def stepOkA : TestStep := { name := "A", operation := StepOutcome.ok }

/-- Sample step used in concrete witnesses: fails with reason "boom". -/
def stepFailB : TestStep := { name := "B", operation := StepOutcome.fail "boom" }

/-- Sample step used in concrete witnesses: succeeds. -/
def stepOkC : TestStep := { name := "C", operation := StepOutcome.ok }

/-- Sample step used in concrete witnesses: panics with a payload. -/
def stepPanicD : TestStep := { name := "D", operation := StepOutcome.panics "segfault payload" }

/-- Global state after one `setup` call in Interactive mode. -/
def stateAfterFirstSetup : GlobalState := ReaperTest.setup initialState 7 false

/-- Global state after calling `setup` a second time in the same process. -/
def stateAfterSecondSetup : GlobalState := ReaperTest.setup stateAfterFirstSetup 7 false

/-- Armed harness used in concrete witnesses for the trigger surface. -/
def armedHarness : ReaperTest :=
  { low := 0, mediumSession := 0, medium := 0, actionHook := some [1]
    steps := [stepOkA], isIntegrationTest := true }

/-- Running a block of succeeding steps first invokes each of them in order
and then behaves as the run of the remaining steps. -/
theorem runSteps_ok_prefix (pre rest : List TestStep)
    (hpre : ∀ s ∈ pre, s.operation = StepOutcome.ok) :
    runSteps (pre ++ rest) =
      (pre.map TestStep.name ++ (runSteps rest).1, (runSteps rest).2) := by
  induction pre with
  | nil => simp [runSteps]
  | cons a t ih =>
    have ha : a.operation = StepOutcome.ok := hpre a (by simp)
    have ht : ∀ s ∈ t, s.operation = StepOutcome.ok := fun s hs => hpre s (by simp [hs])
    simp [runSteps, ha, ih ht]

/-- The invoked-step trace is always the name list of an initial segment of
the registry: steps run in registration order and each at most once. -/
theorem runSteps_trace_take (steps : List TestStep) :
    ∃ k : Nat, (runSteps steps).1 = (steps.take k).map TestStep.name := by
  induction steps with
  | nil => exact ⟨0, rfl⟩
  | cons a t ih =>
    rcases ih with ⟨k, hk⟩
    cases hop : a.operation with
    | ok => exact ⟨k + 1, by simp [runSteps, hop, hk]⟩
    | fail reason => exact ⟨1, by simp [runSteps, hop]⟩
    | panics payload => exact ⟨1, by simp [runSteps, hop]⟩

/-- C1: the Step Runner (`ReaperTest::test`, lib.rs lines 230-243) invokes
the steps strictly in registration order, each at most once (the trace is an
initial segment of the registry); when every step succeeds the outcome is
Success and every step ran exactly once in order; when step k is the first
to fail, the outcome is Failure with that step's reason, steps 1..k-1 ran
exactly once each in order, and steps k+1..N are never invoked. -/
theorem c1_step_runner_fail_fast :
    (∀ steps : List TestStep, (∀ s ∈ steps, s.operation = StepOutcome.ok) →
      (runSteps steps).1 = steps.map TestStep.name ∧
      finalResult (runSteps steps).2 = RunOutcome.success) ∧
    (∀ (pre post : List TestStep) (fs : TestStep) (reason : String),
      (∀ s ∈ pre, s.operation = StepOutcome.ok) →
      fs.operation = StepOutcome.fail reason →
      (runSteps (pre ++ fs :: post)).1 = pre.map TestStep.name ++ [fs.name] ∧
      finalResult (runSteps (pre ++ fs :: post)).2 = RunOutcome.failure reason) ∧
    (∀ steps : List TestStep, ∃ k : Nat,
      (runSteps steps).1 = (steps.take k).map TestStep.name) := by
  refine ⟨?_, ?_, runSteps_trace_take⟩
  · intro steps hok
    have h := runSteps_ok_prefix steps [] hok
    have h2 : runSteps steps = (steps.map TestStep.name, LoopExit.ok) := by
      simpa [runSteps] using h
    rw [h2]
    exact ⟨rfl, rfl⟩
  · intro pre post fs reason hpre hfs
    have h := runSteps_ok_prefix pre (fs :: post) hpre
    rw [h]
    simp [runSteps, hfs, finalResult]

/-- Witness for C1 at a concrete three-step registry whose middle step is
the first to fail. -/
theorem c1_step_runner_fail_fast_witness :
    (runSteps ([stepOkA] ++ stepFailB :: [stepOkC])).1 =
      [stepOkA].map TestStep.name ++ [stepFailB.name] ∧
    finalResult (runSteps ([stepOkA] ++ stepFailB :: [stepOkC])).2 =
      RunOutcome.failure "boom" :=
  c1_step_runner_fail_fast.2.1 [stepOkA] [stepOkC] stepFailB "boom" (by decide) rfl

/-- C3 counterexample: a step that panics is converted to
Failure("Reaper panicked!"), not Failure("host crashed") as the claim
states. -/
theorem c3_crash_reason_counterexample :
    finalResult (runSteps [stepPanicD]).2 = RunOutcome.failure "Reaper panicked!" ∧
    finalResult (runSteps [stepPanicD]).2 ≠ RunOutcome.failure "host crashed" := by
  decide

/-- C3 amended: for every step whose operation panics during execution, the
crash-containment boundary catches it and converts the run outcome into
Failure("Reaper panicked!"); no later step runs and the run produces a
normal RunOutcome rather than terminating ungracefully. -/
theorem c3_crash_containment_amended (pre post : List TestStep)
    (sp : TestStep) (payload : String)
    (hpre : ∀ s ∈ pre, s.operation = StepOutcome.ok)
    (hp : sp.operation = StepOutcome.panics payload) :
    (runSteps (pre ++ sp :: post)).1 = pre.map TestStep.name ++ [sp.name] ∧
    finalResult (runSteps (pre ++ sp :: post)).2 =
      RunOutcome.failure "Reaper panicked!" := by
  have h := runSteps_ok_prefix pre (sp :: post) hpre
  rw [h]
  simp [runSteps, hp, finalResult]

/-- Witness for the amended C3 at a concrete registry whose second step
panics: the third step never runs and the outcome is the generic crash
failure. -/
theorem c3_crash_containment_amended_witness :
    (runSteps ([stepOkA] ++ stepPanicD :: [stepOkC])).1 =
      [stepOkA].map TestStep.name ++ [stepPanicD.name] ∧
    finalResult (runSteps ([stepOkA] ++ stepPanicD :: [stepOkC])).2 =
      RunOutcome.failure "Reaper panicked!" :=
  c3_crash_containment_amended [stepOkA] [stepOkC] stepPanicD "segfault payload"
    (by decide) rfl

/-- C9: whatever the panic payload, the containment boundary (lib.rs lines
240-243) normalizes a caught panic to the same fixed reason
"Reaper panicked!"; the payload never appears in the reported reason. -/
theorem c9_panic_payload_discarded :
    (∀ payload : String,
      finalResult (LoopExit.panicked payload) = RunOutcome.failure "Reaper panicked!") ∧
    (∀ payload1 payload2 : String,
      finalResult (LoopExit.panicked payload1) = finalResult (LoopExit.panicked payload2)) :=
  ⟨fun _ => rfl, fun _ _ => rfl⟩

/-- C2: in Automated mode the reporter (lib.rs lines 244-263) terminates
the process for every run outcome: Success exits with code 0 after the
banner; Failure writes the reason to stderr and exits with code 172; for
every outcome the exit code is 0 or 172 and no other exit path (in
particular no panic) exists. -/
theorem c2_automated_exit_reporter :
    (report true RunOutcome.success =
      { stdoutLines := ["From REAPER: reaper-rs integration test executed successfully"]
        stderrLines := []
        exitCode := some 0
        panicMsg := none }) ∧
    (∀ reason : String,
      report true (RunOutcome.failure reason) =
      { stdoutLines := []
        stderrLines := ["From REAPER: reaper-rs integration test failed: " ++ reason]
        exitCode := some 172
        panicMsg := none }) ∧
    (∀ o : RunOutcome,
      ((report true o).exitCode = some 0 ∨ (report true o).exitCode = some 172) ∧
      (report true o).panicMsg = none) := by
  refine ⟨rfl, fun reason => rfl, ?_⟩
  intro o
  cases o with
  | success => exact ⟨Or.inl rfl, rfl⟩
  | failure reason => exact ⟨Or.inr rfl, rfl⟩

/-- C7: in Interactive mode the reporter never exits the process: Success
emits the banner and continues (no exit, no panic); Failure raises a
`panic!` whose message carries the reason; the exit code is `none` for
every outcome. -/
theorem c7_interactive_exit_reporter :
    (report false RunOutcome.success =
      { stdoutLines := ["From REAPER: reaper-rs integration test executed successfully"]
        stderrLines := []
        exitCode := none
        panicMsg := none }) ∧
    (∀ reason : String,
      report false (RunOutcome.failure reason) =
      { stdoutLines := []
        stderrLines := []
        exitCode := none
        panicMsg := some ("From REAPER: reaper-rs integration test failed: " ++ reason) }) ∧
    (∀ o : RunOutcome, (report false o).exitCode = none) := by
  refine ⟨rfl, fun reason => rfl, ?_⟩
  intro o
  cases o with
  | success => rfl
  | failure reason => rfl

/-- C8: calling `get` or `get_mut` before setup (global instance still
absent) fails with the fatal misuse panic carrying the documented message,
modelled as `Except.error`; in the embedding this failure lives outside the
`RunOutcome` type (whose only values are `success` and `failure`), matching
that SetupMisuse is not a reportable run outcome. -/
theorem c8_get_before_setup :
    ReaperTest.get none = Except.error getMisuseMsg ∧
    ReaperTest.getMut none = Except.error getMisuseMsg :=
  ⟨rfl, rfl⟩

/-- C10: `push_test_step` appends exactly the given step at the end of the
step list and leaves every other harness field unchanged. -/
theorem c10_push_test_step_frame (h : ReaperTest) (step : TestStep) :
    (h.pushTestStep step).steps = h.steps ++ [step] ∧
    (h.pushTestStep step).low = h.low ∧
    (h.pushTestStep step).mediumSession = h.mediumSession ∧
    (h.pushTestStep step).medium = h.medium ∧
    (h.pushTestStep step).actionHook = h.actionHook ∧
    (h.pushTestStep step).isIntegrationTest = h.isIntegrationTest :=
  ⟨rfl, rfl, rfl, rfl, rfl, rfl⟩

/-- C6: the installed hook callback (`ActionHook::call`) reports handled
and triggers exactly one test run precisely when the invoked command id is
a member of the hook's registered set; for ids outside the set it triggers
no run and reports not handled. -/
theorem c6_action_hook_membership (actions : List Nat) (commandId : Nat) :
    (ActionHook.call actions commandId).1 = decide (commandId ∈ actions) ∧
    (ActionHook.call actions commandId).2 = if commandId ∈ actions then 1 else 0 := by
  induction actions with
  | nil => simp [ActionHook.call]
  | cons a t ih =>
    by_cases hac : a = commandId
    · subst hac
      simp [ActionHook.call]
    · have hca : ¬commandId = a := fun hh => hac hh.symm
      simp [ActionHook.call, hac, hca, ih]

/-- With the flag already cleared (Fired), every further poll does
nothing: no test run fires on any of the `n` cycles. -/
theorem pollFires_unarmed (n : Nat) (rpr : ReaperTest)
    (h : rpr.isIntegrationTest = false) :
    ReaperTestSurface.pollFires n rpr = List.replicate n false := by
  induction n with
  | zero => rfl
  | succ m ih =>
    simp [ReaperTestSurface.pollFires, ReaperTestSurface.run, h, ih,
      List.replicate_succ]

/-- C5: the trigger surface fires the test run exactly once, on the first
poll after being installed armed (flag set), and does nothing on every
later poll; with the flag cleared no poll ever fires; and the surface is
registered by `setup` exactly when the mode is Automated. -/
theorem c5_trigger_surface_fires_once :
    (∀ (n : Nat) (rpr : ReaperTest), 1 ≤ n → rpr.isIntegrationTest = true →
      ReaperTestSurface.pollFires n rpr = true :: List.replicate (n - 1) false) ∧
    (∀ (n : Nat) (rpr : ReaperTest), rpr.isIntegrationTest = false →
      ReaperTestSurface.pollFires n rpr = List.replicate n false) ∧
    (∀ (context : Nat) (envFlagSet : Bool),
      (ReaperTest.setup initialState context envFlagSet).hostCsurfRegs =
        if envFlagSet then 1 else 0) := by
  refine ⟨?_, pollFires_unarmed, ?_⟩
  · intro n rpr hn harmed
    cases n with
    | zero => omega
    | succ m =>
      simp [ReaperTestSurface.pollFires, ReaperTestSurface.run, harmed]
      exact pollFires_unarmed m _ rfl
  · intro context envFlagSet
    cases envFlagSet <;> rfl

/-- Witness for C5: from a concrete armed harness, three polls fire on the
first cycle only, and a setup in Automated mode registers the surface. -/
theorem c5_trigger_surface_fires_once_witness :
    ReaperTestSurface.pollFires 3 armedHarness = true :: List.replicate 2 false ∧
    (ReaperTest.setup initialState 0 true).hostCsurfRegs = if true then 1 else 0 :=
  ⟨c5_trigger_surface_fires_once.1 3 armedHarness (by decide) rfl,
   c5_trigger_surface_fires_once.2.2 0 true⟩

/-- C4 counterexample: the second `setup` call is not a no-op. It
constructs a second (transient) harness and registers the default command
with the host again: after the second call the construction and command
registration counters stand at 2, contradicting "no second Harness is ever
constructed, and no duplicate command registration occurs". -/
theorem c4_setup_second_call_counterexample :
    stateAfterFirstSetup.harnessesConstructed = 1 ∧
    stateAfterSecondSetup.harnessesConstructed = 2 ∧
    stateAfterFirstSetup.hostCommandIdRegs = 1 ∧
    stateAfterSecondSetup.hostCommandIdRegs = 2 := by
  decide

/-- C4 amended: a second (or later) call to `setup` returns the same
Harness reference as the first — the `Once` guard leaves the installed
global instance (hence its registered steps and hook state) untouched — but
the call is not a no-op: it constructs another transient Harness and
performs host command, UI-binding and hook registration again. -/
theorem c4_setup_idempotent_amended (s : GlobalState) (context : Nat)
    (envFlagSet : Bool) (h : s.onceDone = true) :
    (ReaperTest.setup s context envFlagSet).inst = s.inst ∧
    (ReaperTest.setup s context envFlagSet).onceDone = true ∧
    (ReaperTest.setup s context envFlagSet).harnessesConstructed =
      s.harnessesConstructed + 1 ∧
    (ReaperTest.setup s context envFlagSet).hostCommandIdRegs =
      s.hostCommandIdRegs + 1 ∧
    (ReaperTest.setup s context envFlagSet).hostGaccelRegs =
      s.hostGaccelRegs + 1 ∧
    (ReaperTest.setup s context envFlagSet).hostHookCmdRegs =
      s.hostHookCmdRegs + 1 := by
  cases envFlagSet <;>
    simp [ReaperTest.setup, ReaperTest.registerAction, ReaperTest.checkActionHook,
      ReaperTest.makeAvailableGlobally, h]

/-- Witness for the amended C4: after the first concrete setup call
(`Once` fired), a second call keeps the global instance and increments the
construction and host-registration counters. -/
theorem c4_setup_idempotent_amended_witness :
    (ReaperTest.setup stateAfterFirstSetup 7 false).inst = stateAfterFirstSetup.inst ∧
    (ReaperTest.setup stateAfterFirstSetup 7 false).onceDone = true ∧
    (ReaperTest.setup stateAfterFirstSetup 7 false).harnessesConstructed =
      stateAfterFirstSetup.harnessesConstructed + 1 ∧
    (ReaperTest.setup stateAfterFirstSetup 7 false).hostCommandIdRegs =
      stateAfterFirstSetup.hostCommandIdRegs + 1 ∧
    (ReaperTest.setup stateAfterFirstSetup 7 false).hostGaccelRegs =
      stateAfterFirstSetup.hostGaccelRegs + 1 ∧
    (ReaperTest.setup stateAfterFirstSetup 7 false).hostHookCmdRegs =
      stateAfterFirstSetup.hostHookCmdRegs + 1 :=
  c4_setup_idempotent_amended stateAfterFirstSetup 7 false (by decide)
